import Mathlib

/-!
Verification of the RPI orchestration engine of the mera-ai repository.

This file gives a shallow embedding, in Lean 4, of the parts of the source
relevant to the frozen claims: the in-memory review store
(app/review_system.py), the multi-agent context system
(app/multi_agent_context_system.py), the retrying generation client
(app/llm_client.py), the tenant/budget ledger (app/spaces/space_manager.py,
app/spaces/space_model.py), the unified orchestrator entry point
(app/orchestrators/langchain_unified.py) and the plan-review/implement
pipeline nodes (app/orchestrator.py).

Modelling conventions: Python unbounded ints become Int (or Nat where the
source value is a count), Python floats become Rat, fallible calls return
Except PyExc, awaited external effects (database reads, HTTP fetches, LLM
chains) are injected as explicit environment functions, and Python dicts
become association lists (for the review store, where the claim speaks of
the number of stored entries) or finite maps as functions (for the usage
ledger, where the database enforces one row per key).
-/

namespace MeraAI

/-- Model of a Python exception. The field runtime records whether the
exception is an instance of RuntimeError, which several except-clauses in
the source single out; msg models str(e). -/
structure PyExc where
  runtime : Bool
  msg : String
deriving DecidableEq

/-! ## Review system (app/review_system.py) -/

/-- ReviewStatus from app/review_system.py. -/
inductive ReviewStatus where
  | pending
  | approved
  | rejected
deriving DecidableEq

/-- ReviewTask dataclass from app/review_system.py (the created_at timestamp
is modelled as a Nat tick). -/
structure ReviewTask where
  id : String
  user_id : String
  type : String
  content : String
  created_at : Nat
  status : ReviewStatus
  reviewer_notes : String
deriving DecidableEq

/-- The InMemoryReviewStore._tasks Python dict, modelled as an association
list so that the number of stored entries under a key is observable. -/
abbrev ReviewStore := List (String × ReviewTask)

/-- Python dict assignment d[key] = v: if the key is present the value is
replaced in place, otherwise the pair is appended. -/
def dictInsert (store : ReviewStore) (key : String) (v : ReviewTask) : ReviewStore :=
  if store.any (fun p => p.1 == key) then
    store.map (fun p => if p.1 == key then (key, v) else p)
  else
    store ++ [(key, v)]

/-- Python dict lookup d.get(key). -/
def dictGet (store : ReviewStore) (key : String) : Option ReviewTask :=
  (store.find? (fun p => p.1 == key)).map (fun p => p.2)

/-- InMemoryReviewStore.create: self._tasks[task.id] = task. -/
def InMemoryReviewStore.create (store : ReviewStore) (task : ReviewTask) : ReviewStore :=
  dictInsert store task.id task

/-- InMemoryReviewStore.set_status: looks the task up, silently returns when
it is absent, otherwise mutates status and reviewer_notes in place. -/
def InMemoryReviewStore.set_status (store : ReviewStore) (task_id : String)
    (status : ReviewStatus) (notes : String) : ReviewStore :=
  match dictGet store task_id with
  | none => store
  | some task => dictInsert store task_id { task with status := status, reviewer_notes := notes }

/-- InMemoryReviewStore.get: self._tasks.get(task_id). -/
def InMemoryReviewStore.get (store : ReviewStore) (task_id : String) : Option ReviewTask :=
  dictGet store task_id

/-- Number of entries stored under a given key. -/
def keyCount (store : ReviewStore) (key : String) : Nat :=
  (store.filter (fun p => p.1 == key)).length

/-- The Python dict invariant: keys are pairwise distinct. -/
def StoreWf (store : ReviewStore) : Prop :=
  (store.map Prod.fst).Nodup

/-! ## Multi-agent context system (app/multi_agent_context_system.py) -/

/-- ContextSourceType enum from app/multi_agent_context_system.py. -/
inductive ContextSourceType where
  | FILE
  | DIRECTORY
  | URL
  | API
  | DATABASE
  | MEMORY
deriving DecidableEq

/-- ContextSource dataclass (the extra map is irrelevant to the claims and
is modelled as an association list). -/
structure ContextSource where
  type : ContextSourceType
  path : String

/-- ContextSpecification dataclass. -/
structure ContextSpecification where
  query : String
  sources : List ContextSource

/-- FileExplorerAgent.run: filters FILE/DIRECTORY sources; empty filter
result short-circuits to the empty fragment before the injected read_paths
callable is invoked. -/
def FileExplorerAgent.run (read_paths : List String → Except PyExc String)
    (sources : List ContextSource) (_query : String) : Except PyExc String :=
  let paths := (sources.filter
    (fun s => s.type == ContextSourceType.FILE || s.type == ContextSourceType.DIRECTORY)).map
    ContextSource.path
  if paths.isEmpty then .ok ""
  else
    match read_paths paths with
    | .error e => .error e
    | .ok content => .ok ("# File/Directory Findings\n\n" ++ content)

/-- LinkCrawlerAgent.run: filters URL/API sources; empty filter result
short-circuits to the empty fragment before fetch_urls is invoked. -/
def LinkCrawlerAgent.run (fetch_urls : List String → Except PyExc String)
    (sources : List ContextSource) (_query : String) : Except PyExc String :=
  let urls := (sources.filter
    (fun s => s.type == ContextSourceType.URL || s.type == ContextSourceType.API)).map
    ContextSource.path
  if urls.isEmpty then .ok ""
  else
    match fetch_urls urls with
    | .error e => .error e
    | .ok docs => .ok ("# Link/API Findings\n\n" ++ docs)

/-- DataAnalyzerAgent.run: filters DATABASE sources. -/
def DataAnalyzerAgent.run (analyze_databases : List String → String → Except PyExc String)
    (sources : List ContextSource) (query : String) : Except PyExc String :=
  let dbs := (sources.filter (fun s => s.type == ContextSourceType.DATABASE)).map
    ContextSource.path
  if dbs.isEmpty then .ok ""
  else
    match analyze_databases dbs query with
    | .error e => .error e
    | .ok analysis => .ok ("# Database Findings\n\n" ++ analysis)

/-- MemoryRetrieverAgent.run: returns the empty fragment when no MEMORY
source is present; otherwise gathers retrieve_memory over the MEMORY
sources, keeps the truthy (non-empty) results, and returns the empty
fragment again when nothing was retrieved. -/
def MemoryRetrieverAgent.run (retrieve_memory : String → String → Except PyExc String)
    (sources : List ContextSource) (query : String) : Except PyExc String :=
  if !(sources.any (fun s => s.type == ContextSourceType.MEMORY)) then .ok ""
  else
    match (sources.filter (fun s => s.type == ContextSourceType.MEMORY)).mapM
        (fun src => retrieve_memory src.path query) with
    | .error e => .error e
    | .ok combined =>
      let text := String.intercalate "\n\n" (combined.filter (fun c => c != ""))
      if text == "" then .ok "" else .ok ("# Memory Findings\n\n" ++ text)

/-- Python str.strip(): removes whitespace from both ends (defined over the
character list so that it evaluates in the kernel). -/
def pyStrip (s : String) : String :=
  String.mk (((s.toList.dropWhile Char.isWhitespace).reverse.dropWhile
    Char.isWhitespace).reverse)

/-- SynthesizerAgent.run: keeps the parts whose strip() is truthy and joins
them under a header carrying the original query. -/
def SynthesizerAgent.run (parts : List String) (query : String) : String :=
  let non_empty := parts.filter (fun p => pyStrip p != "")
  let header := "# Research Summary\n\nQuery: " ++ query ++ "\n\n"
  header ++ String.intercalate "\n\n" non_empty

/-- The four injected callables of a MultiAgentCoordinator instance. -/
structure CoordinatorEnv where
  read_paths : List String → Except PyExc String
  fetch_urls : List String → Except PyExc String
  analyze_databases : List String → String → Except PyExc String
  retrieve_memory : String → String → Except PyExc String

/-- MultiAgentCoordinator.research_with_context: runs the four sub-agents
over the same source list (the asyncio.gather join is modelled by
sequencing in Except; an exception raised by any sub-agent propagates) and
synthesizes the four fragments. -/
def MultiAgentCoordinator.research_with_context (env : CoordinatorEnv)
    (spec : ContextSpecification) : Except PyExc String := do
  let file_part ← FileExplorerAgent.run env.read_paths spec.sources spec.query
  let link_part ← LinkCrawlerAgent.run env.fetch_urls spec.sources spec.query
  let data_part ← DataAnalyzerAgent.run env.analyze_databases spec.sources spec.query
  let memory_part ← MemoryRetrieverAgent.run env.retrieve_memory spec.sources spec.query
  pure (SynthesizerAgent.run [file_part, link_part, data_part, memory_part] spec.query)

/-! ## Production link agent (MultiAgentCoordinator.production.fetch_urls) -/

/-- Outcome of one HTTP GET issued by the production fetch_single_url. -/
inductive UrlFetchOutcome where
  | body (text : String)
  | requestError (msg : String)
  | httpStatusError (code : Nat)
  | otherError (msg : String)

/-- Environment of the production fetch closure: the Result Cache content
(keyed by URL, as the cache key tuple is (url_fetch, url)) and the network
response per URL. -/
structure LinkFetchEnv where
  cache : String → Option String
  fetch : String → UrlFetchOutcome

/-- The NameError raised when the module evaluates the unbound name
get_cached. -/
def getCachedNameError : PyExc :=
  { runtime := false, msg := "name get_cached is not defined" }

/-- Embeds fetch_single_url from MultiAgentCoordinator.production in
app/multi_agent_context_system.py as written: the function body evaluates
the name get_cached before its try block, but the module never imports
get_cached (or set_cached) from app.cache and defines no such global, so
every call raises NameError; the transport-error handlers start only at
the later try statement and do not catch it. -/
def production.fetch_single_url (_env : LinkFetchEnv) (_url : String) : Except PyExc String :=
  .error getCachedNameError

/-- Embeds fetch_urls from MultiAgentCoordinator.production: gathers
fetch_single_url over the URLs and joins the fragments; an exception from
any single fetch propagates out of the gather (the surrounding try has
only a finally clause, which closes the shared client). -/
def production.fetch_urls (env : LinkFetchEnv) (urls : List String) : Except PyExc String :=
  match urls.mapM (production.fetch_single_url env) with
  | .error e => .error e
  | .ok results => .ok (String.intercalate "\n\n" results)

/-- Body of fetch_single_url as its surrounding code intends it (with
get_cached/set_cached imported from app.cache): cache hit returns the
cached fragment; otherwise the response body is truncated beyond 50000
characters and wrapped in a per-URL fragment, and any transport error is
converted into an inline error fragment for that URL alone. -/
def production.fetch_single_url_intended (env : LinkFetchEnv) (url : String) : String :=
  match env.cache url with
  | some cached => cached
  | none =>
    match env.fetch url with
    | .body text =>
      let content := if text.length > 50000 then text.take 50000 ++ "\n\n[... truncated ...]" else text
      "## URL: " ++ url ++ "\n\n```\n" ++ content ++ "\n```"
    | .requestError msg => "Error fetching " ++ url ++ ": Network error - " ++ msg
    | .httpStatusError code => "Error fetching " ++ url ++ ": HTTP " ++ toString code
    | .otherError msg => "Error fetching " ++ url ++ ": " ++ msg

/-- Intended fetch_urls: never raises, one fragment per URL. -/
def production.fetch_urls_intended (env : LinkFetchEnv) (urls : List String) : Except PyExc String :=
  .ok (String.intercalate "\n\n" (urls.map (production.fetch_single_url_intended env)))

/-! ## Retrying generation client (app/llm_client.py) -/

/-- Outcome of one POST attempt inside call_openrouter_chat.
httpStatusError models httpx.HTTPStatusError raised by raise_for_status,
requestError models httpx.RequestError / httpx.TimeoutException, and
otherError models any other exception. -/
inductive CallOutcome where
  | success (body : String)
  | httpStatusError (code : Nat)
  | requestError (msg : String)
  | otherError (msg : String)

/-- Exception escaping call_openrouter_chat. exhausted models the final
RuntimeError raised when the loop ends without any recorded exception. -/
inductive ChatError where
  | httpStatus (code : Nat)
  | network (msg : String)
  | other (msg : String)
  | exhausted
deriving DecidableEq

/-- Whether an attempt outcome is retried by the loop (5xx HTTP status or
network/timeout error). -/
def CallOutcome.isTransient : CallOutcome → Bool
  | .httpStatusError code => 500 ≤ code
  | .requestError _ => true
  | _ => false

/-- The raise after the loop of call_openrouter_chat: the last recorded
exception when there is one, the final RuntimeError otherwise. -/
def retryExhausted : Option ChatError → Except ChatError String × List ℚ
  | some e => (.error e, [])
  | none => (.error .exhausted, [])

/-- The for-attempt-in-range(max_retries) loop of call_openrouter_chat.
responses gives the outcome of the POST at each attempt index. Returns the
result together with the list of inter-attempt sleep durations, in order:
a 5xx or network outcome records the exception and, when another attempt
remains, sleeps retry_delay * 2 ** attempt; an HTTP status below 500 and
any other exception are re-raised immediately; after the loop the last
recorded exception (or a final RuntimeError) is raised. -/
def retryLoop (responses : Nat → CallOutcome) (max_retries : Nat) (retry_delay : ℚ)
    (attempt : Nat) (last_exception : Option ChatError) :
    Except ChatError String × List ℚ :=
  if _h : attempt < max_retries then
    match responses attempt with
    | .success body => (.ok body, [])
    | .httpStatusError code =>
      if code < 500 then (.error (.httpStatus code), [])
      else
        let rest := retryLoop responses max_retries retry_delay (attempt + 1)
          (some (.httpStatus code))
        if attempt < max_retries - 1 then (rest.1, retry_delay * 2 ^ attempt :: rest.2)
        else (rest.1, rest.2)
    | .requestError msg =>
      let rest := retryLoop responses max_retries retry_delay (attempt + 1)
        (some (.network msg))
      if attempt < max_retries - 1 then (rest.1, retry_delay * 2 ^ attempt :: rest.2)
      else (rest.1, rest.2)
    | .otherError msg => (.error (.other msg), [])
  else retryExhausted last_exception
termination_by max_retries - attempt
decreasing_by all_goals omega

/-- The per-model minimum inter-request interval _min_request_interval. -/
def minRequestInterval : ℚ := 1 / 10

/-- Observable behaviour of one call_openrouter_chat invocation. -/
structure ChatResult where
  result : Except ChatError String
  rateLimitSleep : Option ℚ
  retrySleeps : List ℚ
  clientClosed : Bool

/-- Embeds call_openrouter_chat: client selection (use_shared is true iff
the caller passed no client), the rate-limiter sleep driven by the elapsed
time since the last dispatch for the model, the retry loop, and the
finally clause, which closes the client in use exactly when it was
caller-supplied. clientClosed records whether aclose() ran on the client
used for this call. -/
def call_openrouter_chat (responses : Nat → CallOutcome) (max_retries : Nat)
    (retry_delay : ℚ) (clientProvided : Bool) (elapsed : ℚ) : ChatResult :=
  let use_shared := !clientProvided
  let rateSleep := if elapsed < minRequestInterval then some (minRequestInterval - elapsed) else none
  let lr := retryLoop responses max_retries retry_delay 0 none
  { result := lr.1
    rateLimitSleep := rateSleep
    retrySleeps := lr.2
    clientClosed := !use_shared }

/-! ## Tenant/budget ledger (app/spaces) -/

/-- SpaceConfig dataclass from app/spaces/space_model.py (post-init path
defaulting is irrelevant to the claims and left to the concrete values). -/
structure SpaceConfig where
  space_id : String
  name : String
  owner_id : String
  monthly_token_budget : Int
  monthly_api_calls : Int
  obsidian_vault_path : String
  mem0_collection_name : String
  neo4j_graph_name : String
  postgres_schema : String
  preferred_model : String
deriving DecidableEq

/-- SpaceUsage dataclass from app/spaces/space_model.py (cost_usd, a Python
float, is modelled as a rational). -/
structure SpaceUsage where
  space_id : String
  month : String
  tokens_used : Int
  api_calls_used : Int
  cost_usd : ℚ
deriving DecidableEq

/-- SpaceUsage.get_budget_remaining. -/
def SpaceUsage.get_budget_remaining (u : SpaceUsage) (config : SpaceConfig) : Int :=
  config.monthly_token_budget - u.tokens_used

/-- The space_usage database table: at most one row per (space_id, month),
modelled as a partial map. -/
abbrev UsageStore := String → String → Option SpaceUsage

/-- SpaceManager.get_space_usage with an explicit month: returns the stored
row, or an empty usage record when none exists. -/
def SpaceManager.get_space_usage (store : UsageStore) (space_id month : String) : SpaceUsage :=
  match store space_id month with
  | some u => u
  | none =>
    { space_id := space_id, month := month, tokens_used := 0, api_calls_used := 0, cost_usd := 0 }

/-- SpaceManager.update_space_usage with an explicit month: read-modify-write
that increments the existing row, or inserts a fresh row holding exactly the
increments when no row exists. -/
def SpaceManager.update_space_usage (store : UsageStore) (space_id : String)
    (tokens_used api_calls_used : Int) (cost_usd : ℚ) (month : String) : UsageStore :=
  fun sid m =>
    if sid = space_id ∧ m = month then
      match store space_id month with
      | some u =>
        some
          { u with
            tokens_used := u.tokens_used + tokens_used,
            api_calls_used := u.api_calls_used + api_calls_used,
            cost_usd := u.cost_usd + cost_usd }
      | none =>
        some
          { space_id := space_id, month := month, tokens_used := tokens_used,
            api_calls_used := api_calls_used, cost_usd := cost_usd }
    else store sid m

/-! ## Unified orchestrator entry point
(app/orchestrators/langchain_unified.py, LangChainUnifiedOrchestrator.process_query) -/

/-- The comma character (code point 44). -/
def commaChar : Char := Char.ofNat 44

/-- Helper for pythonCommaFormat: walks the reversed digit list inserting a
comma after every third digit. -/
def commaRev : List Char → Nat → List Char
  | [], _ => []
  | c :: rest, k =>
    if k == 3 then [commaChar, c] ++ commaRev rest 1
    else c :: commaRev rest (k + 1)

/-- Python format spec value for remaining in the budget-exceeded f-string:
thousands grouping with commas, sign in front. -/
def pythonCommaFormat (n : Int) : String :=
  let digits := (toString n.natAbs).toList
  let grouped := (commaRev digits.reverse 0).reverse
  (if n < 0 then "-" else "") ++ String.mk grouped

/-- WorkflowResult from app/core.py, with the metadata dict flattened into
the keys the orchestrator actually writes. -/
structure WorkflowResult where
  answer : String
  research : Option String
  plan : Option String
  metadata_error : Option String
  metadata_remaining : Option Int
  metadata_model : Option String
  metadata_tokens_used : Option Int
deriving DecidableEq

/-- The SpaceManager as seen by process_query: get_current_space can raise
(RuntimeError when no space is selected), the usage table is read through
SpaceManager.get_space_usage, usage_fault injects a database failure raised
while awaiting get_space_usage, and current_month is the month key computed
from utcnow. -/
structure SMEnv where
  current_space : Except PyExc SpaceConfig
  usage_store : UsageStore
  usage_fault : Option PyExc
  current_month : String

/-- The awaited space_manager.get_space_usage(space_id) call. -/
def SMEnv.get_space_usage_call (sm : SMEnv) (space_id : String) : Except PyExc SpaceUsage :=
  match sm.usage_fault with
  | some e => .error e
  | none => .ok (SpaceManager.get_space_usage sm.usage_store space_id sm.current_month)

/-- Environment of one process_query run: the optional space manager, the
three LangChain chains (each one generation-client invocation, fed the
inputs the source feeds them), whether a db session was passed, the
conversation write, and the tiktoken estimator. -/
structure PQEnv where
  space_manager : Option SMEnv
  research_chain : String → Except PyExc String
  plan_chain : String → String → Except PyExc String
  implement_chain : String → String → String → Except PyExc String
  db_provided : Bool
  store_conversation : Except PyExc Unit
  count_tokens : String → Int
  default_model : String

/-- The answer text of the budget-exceeded result, with the f-string
formatting of remaining. -/
def budget_answer (remaining : Int) : String :=
  "Space budget exceeded. Only " ++ pythonCommaFormat remaining ++
    " tokens remaining. Please upgrade your plan or wait for the next billing cycle."

/-- The budget-exceeded WorkflowResult. -/
def budget_result (remaining : Int) : WorkflowResult :=
  { answer := budget_answer remaining
    research := none
    plan := none
    metadata_error := some "budget_exceeded"
    metadata_remaining := some remaining
    metadata_model := none
    metadata_tokens_used := none }

/-- The WorkflowResult produced by the top-level except clause of
process_query. -/
def error_result (e : PyExc) : WorkflowResult :=
  { answer := "I encountered an error processing your query: " ++ e.msg
    research := none
    plan := none
    metadata_error := some e.msg
    metadata_remaining := none
    metadata_model := none
    metadata_tokens_used := none }

/-- The TypeError raised by ObsidianClient(vault_path=...) at
langchain_unified.py line 149: the import from app.adapters.obsidian
resolves to the package (which shadows app/adapters/obsidian.py), whose
ObsidianClient is ObsidianAdapter from app/adapters/obsidian/client.py; its
hand-written init accepts only base_url and token (the dataclass decorator
keeps an explicitly defined init), so the keyword vault_path always raises. -/
def obsidianVaultPathTypeError : PyExc :=
  { runtime := false
    msg := "TypeError: ObsidianAdapter init got an unexpected keyword argument vault_path" }

/-- Outcome of the space-aware setup section of process_query (the part of
the body between the space_manager test and the try statement). -/
inductive SetupOutcome where
  | fallback
  | budgetExceeded (remaining : Int)
  | raised (e : PyExc)
deriving DecidableEq

/-- The space-aware setup section of process_query, lines 132-159 of
langchain_unified.py. Its try clause catches only RuntimeError (falling
back to defaults). In order: get_current_space, get_space_usage, the
budget check (whose early return carries the remaining count), then the
space-specific constructions of lines 146-156: the ChromaMemoryAdapter
construction (field assignments, does not raise), then
ObsidianClient(vault_path=...), which raises TypeError unconditionally —
a non-RuntimeError, so it propagates and the rest of the section
(coordinator construction, preferred-model selection) is unreachable. -/
def space_setup (sm : SMEnv) : SetupOutcome :=
  match sm.current_space with
  | .error e => if e.runtime then .fallback else .raised e
  | .ok cfg =>
    match sm.get_space_usage_call cfg.space_id with
    | .error e => if e.runtime then .fallback else .raised e
    | .ok usage =>
      if usage.get_budget_remaining cfg < 10000 then
        .budgetExceeded (usage.get_budget_remaining cfg)
      else
        .raised obsidianVaultPathTypeError

/-- The tail of the try body after the implement phase: the optional
conversation write, the fire-and-forget memory write (asyncio.create_task,
which cannot raise here), and the usage-tracking section (whose inner try
swallows every exception), then the success result. -/
def persist_stage (env : PQEnv) (query research plan answer model : String)
    (space_tokens : Bool) : Except PyExc WorkflowResult × Nat :=
  match (if env.db_provided then env.store_conversation else .ok ()) with
  | .error e => (.ok (error_result e), 3)
  | .ok _ =>
    let total := env.count_tokens query + env.count_tokens research +
      env.count_tokens plan + env.count_tokens answer
    let tokens : Int := if space_tokens then total else 0
    (.ok { answer := answer
           research := some research
           plan := some plan
           metadata_error := none
           metadata_remaining := none
           metadata_model := some model
           metadata_tokens_used := some tokens }, 3)

/-- The implement phase and what follows it inside the try body. -/
def implement_stage (env : PQEnv) (query research plan model : String)
    (space_tokens : Bool) : Except PyExc WorkflowResult × Nat :=
  match env.implement_chain query research plan with
  | .error e => (.ok (error_result e), 3)
  | .ok answer => persist_stage env query research plan answer model space_tokens

/-- The plan phase and what follows it inside the try body. -/
def plan_stage (env : PQEnv) (query research model : String) (space_tokens : Bool) :
    Except PyExc WorkflowResult × Nat :=
  match env.plan_chain query research with
  | .error e => (.ok (error_result e), 2)
  | .ok plan => implement_stage env query research plan model space_tokens

/-- The try/except body of process_query: research, plan and implement
chains in sequence (each counted as one generation call), then the persist
tail. Any exception raised in the body is converted by the top-level
except clause into error_result; the second component counts
generation-chain invocations. -/
def main_try (env : PQEnv) (query model : String) (space_tokens : Bool) :
    Except PyExc WorkflowResult × Nat :=
  match env.research_chain query with
  | .error e => (.ok (error_result e), 1)
  | .ok research => plan_stage env query research model space_tokens

/-- Embeds LangChainUnifiedOrchestrator.process_query. Returns the result
(or the exception that escaped the call) together with the number of
generation-chain invocations performed during the run. With a space
manager present, the setup section reads the budget and terminates early
with budget_result when fewer than 10000 tokens remain; a non-RuntimeError
exception raised there — including the unconditional TypeError of the
budget-OK branch at the ObsidianClient(vault_path=...) call — escapes the
function, because the enclosing try catches only RuntimeError and the
outer try/except has not started yet. The try body is therefore reached
only without a space manager or through the RuntimeError fallback. -/
def process_query (env : PQEnv) (query : String) (model_arg : Option String) :
    Except PyExc WorkflowResult × Nat :=
  let model0 := match model_arg with
    | some m => m
    | none => env.default_model
  match env.space_manager with
  | none => main_try env query model0 false
  | some sm =>
    match space_setup sm with
    | .raised e => (.error e, 0)
    | .fallback => main_try env query model0 false
    | .budgetExceeded remaining => (.ok (budget_result remaining), 0)

/-! ## Pipeline nodes (app/orchestrator.py) -/

/-- IMPLEMENT_PROMPT from app/prompts.py. -/
def IMPLEMENT_PROMPT : String :=
  "\nA good group of people are executing a pre-written plan exactly.\n\nINPUT:\n- USER QUERY\n- RESEARCH DOCUMENT\n- IMPLEMENTATION PLAN\n\nTASK:\n- Follow the plan step-by-step.\n- Do not introduce unrelated work.\n- When unsure, state the uncertainty explicitly.\n\nOUTPUT:\n- Final answer for the user\n- Brief summary of what you did\n"

/-- ConversationState TypedDict from app/orchestrator.py (messages are
(role, content) pairs; mem0 results are reduced to their text field; the
fields driving the claims are kept verbatim). -/
structure ConversationState where
  user_id : String
  query : String
  model : String
  messages : List (String × String)
  mem0_results : List String
  obsidian_context : String
  research_output : Option String
  plan_output : Option String
  answer : Option String
  context_utilization : ℚ
  context_sources : List (String × String)
  research_review_id : Option String
  plan_review_id : Option String
  research_approved : Bool
  plan_approved : Bool

/-- Python truthiness of an optional string (None and the empty string are
falsy). -/
def optStrTruthy : Option String → Bool
  | none => false
  | some s => s != ""

/-- Embeds _plan_review_node: a falsy plan output auto-approves; with no
existing review id a task is created and immediately approved (the default
non-interactive policy); with an existing review id the stored task decides,
rejected mapping to plan_approved = false. hash_query models Python
hash(state query) % 10000. -/
def plan_review_node (hash_query : Nat) (st : ConversationState) (store : ReviewStore) :
    ConversationState × ReviewStore :=
  match st.plan_output with
  | none => ({ st with plan_approved := true }, store)
  | some p =>
    if p == "" then ({ st with plan_approved := true }, store)
    else
      match st.plan_review_id with
      | none =>
        let tid := "plan-" ++ st.user_id ++ "-" ++ toString (hash_query % 10000)
        let task : ReviewTask :=
          { id := tid, user_id := st.user_id, type := "plan", content := p,
            created_at := 0, status := .pending, reviewer_notes := "" }
        let store1 := InMemoryReviewStore.create store task
        let store2 := InMemoryReviewStore.set_status store1 tid .approved ""
        ({ st with plan_review_id := some tid, plan_approved := true }, store2)
      | some rid =>
        match InMemoryReviewStore.get store rid with
        | some task =>
          if task.status = .approved then ({ st with plan_approved := true }, store)
          else if task.status = .rejected then ({ st with plan_approved := false }, store)
          else (st, store)
        | none => (st, store)

/-- Embeds _implement_node: when the plan is not approved the answer is set
to the fixed refusal text and the generation client is not called;
otherwise the implement prompt is assembled and one generation call is
made. The second component counts generation calls made by the node. -/
def implement_node (chat : String → Except PyExc String) (st : ConversationState) :
    Except PyExc ConversationState × Nat :=
  if !st.plan_approved then
    (.ok { st with answer := some "Plan not approved. Cannot implement." }, 0)
  else
    let research := st.research_output.getD ""
    let plan := st.plan_output.getD ""
    let content := IMPLEMENT_PROMPT ++ "\n\nUSER QUERY:\n" ++ st.query ++
      "\n\nRESEARCH:\n" ++ research ++ "\n\nPLAN:\n" ++ plan
    match chat content with
    | .error e => (.error e, 1)
    | .ok answer =>
      (.ok { st with
             answer := some answer
             messages := st.messages ++ [("assistant", answer)] }, 1)

/-- The remaining-token value computed at the BUDGET_CHECK step of
process_query for a given space manager state and space config. -/
def observed_remaining (sm : SMEnv) (cfg : SpaceConfig) : Int :=
  (SpaceManager.get_space_usage sm.usage_store cfg.space_id sm.current_month).get_budget_remaining cfg

/-! ## Concrete fixtures used by the witness theorems -/

/-- Fixture: a review task. -/
def taskA : ReviewTask :=
  { id := "r1", user_id := "u", type := "plan", content := "c1", created_at := 0,
    status := .pending, reviewer_notes := "" }

/-- Fixture: a second review task under the same id. -/
def taskB : ReviewTask :=
  { id := "r1", user_id := "u", type := "plan", content := "c2", created_at := 1,
    status := .pending, reviewer_notes := "" }

/-- Fixture: a link-fetch environment where every fetch would succeed. -/
def linkEnvOk : LinkFetchEnv :=
  { cache := fun _ => none, fetch := fun _ => .body "hello" }

/-- Fixture: the T2 tenant of the end-to-end budget scenario. -/
def cfgT2 : SpaceConfig :=
  { space_id := "T2", name := "Tenant two", owner_id := "o", monthly_token_budget := 100000,
    monthly_api_calls := 10000, obsidian_vault_path := "v", mem0_collection_name := "m",
    neo4j_graph_name := "g", postgres_schema := "s", preferred_model := "openai/gpt-4o-mini" }

/-- Fixture: T2 usage with 95000 tokens used this month. -/
def usageT2 : SpaceUsage :=
  { space_id := "T2", month := "2026-10", tokens_used := 95000, api_calls_used := 10,
    cost_usd := 0 }

/-- Fixture: space manager state with the T2 usage row present. -/
def smT2 : SMEnv :=
  { current_space := .ok cfgT2
    usage_store := fun sid m => if sid = "T2" ∧ m = "2026-10" then some usageT2 else none
    usage_fault := none
    current_month := "2026-10" }

/-- Fixture: chains that all succeed. -/
def envT2 : PQEnv :=
  { space_manager := some smT2
    research_chain := fun _ => .ok "res"
    plan_chain := fun _ _ => .ok "plan"
    implement_chain := fun _ _ _ => .ok "ans"
    db_provided := false
    store_conversation := .ok ()
    count_tokens := fun s => s.length
    default_model := "openai/gpt-4o-mini" }

/-- Fixture: a space manager whose usage read raises a non-RuntimeError
database exception. -/
def smFault : SMEnv :=
  { current_space := .ok cfgT2
    usage_store := fun _ _ => none
    usage_fault := some { runtime := false, msg := "database connection lost" }
    current_month := "2026-10" }

/-- Fixture: process_query environment around smFault. -/
def envFault : PQEnv :=
  { space_manager := some smFault
    research_chain := fun _ => .ok "res"
    plan_chain := fun _ _ => .ok "plan"
    implement_chain := fun _ _ _ => .ok "ans"
    db_provided := false
    store_conversation := .ok ()
    count_tokens := fun s => s.length
    default_model := "openai/gpt-4o-mini" }

/-- Fixture: no space manager, research chain raises. -/
def envErr : PQEnv :=
  { space_manager := none
    research_chain := fun _ => .error { runtime := false, msg := "boom" }
    plan_chain := fun _ _ => .ok "plan"
    implement_chain := fun _ _ _ => .ok "ans"
    db_provided := false
    store_conversation := .ok ()
    count_tokens := fun s => s.length
    default_model := "openai/gpt-4o-mini" }

/-- Fixture: outcome sequence failing with 503 twice, then succeeding. -/
def respsC3 : Nat → CallOutcome :=
  fun n => if n < 2 then .httpStatusError 503 else .success "done"

/-- Fixture: outcome sequence failing with 404 on every attempt. -/
def respsC3bad : Nat → CallOutcome :=
  fun _ => .httpStatusError 404

/-- Fixture: the rejected plan-review task of the resume scenario. -/
def taskC7 : ReviewTask :=
  { id := "plan-u-1", user_id := "u", type := "plan", content := "p", created_at := 0,
    status := .rejected, reviewer_notes := "no" }

/-- Fixture: review store holding the rejected plan task. -/
def storeC7 : ReviewStore := [("plan-u-1", taskC7)]

/-- Fixture: pipeline state resuming with the plan produced and the plan
review id set. -/
def stateC7 : ConversationState :=
  { user_id := "u", query := "q", model := "m", messages := [("user", "q")],
    mem0_results := [], obsidian_context := "", research_output := some "r",
    plan_output := some "p", answer := none, context_utilization := 0,
    context_sources := [], research_review_id := some "research-u-1",
    plan_review_id := some "plan-u-1", research_approved := true, plan_approved := true }

/-- Fixture: a usage store with no rows. -/
def usageStore0 : UsageStore := fun _ _ => none

/-- Fixture: space manager state for T2 with no usage row, so the full
100000-token budget remains. -/
def smOkBudget : SMEnv :=
  { current_space := .ok cfgT2
    usage_store := fun _ _ => none
    usage_fault := none
    current_month := "2026-10" }

/-- Fixture: process_query environment around smOkBudget. -/
def envOkBudget : PQEnv :=
  { space_manager := some smOkBudget
    research_chain := fun _ => .ok "res"
    plan_chain := fun _ _ => .ok "plan"
    implement_chain := fun _ _ _ => .ok "ans"
    db_provided := false
    store_conversation := .ok ()
    count_tokens := fun s => s.length
    default_model := "openai/gpt-4o-mini" }

/-! ## Helper lemmas -/

theorem keyCount_append (s t : ReviewStore) (k : String) :
    keyCount (s ++ t) k = keyCount s k + keyCount t k := by
  simp [keyCount, List.filter_append]

theorem keyCount_map_replace (t : ReviewStore) (k : String) (v : ReviewTask) :
    keyCount (t.map (fun p => if p.1 == k then (k, v) else p)) k = keyCount t k := by
  induction t with
  | nil => rfl
  | cons a t ih =>
    rw [List.map_cons]
    by_cases ha : (a.1 == k) = true
    · rw [if_pos ha]
      unfold keyCount at ih ⊢
      rw [List.filter_cons, List.filter_cons, if_pos ha]
      rw [if_pos (show (((k, v) : String × ReviewTask).1 == k) = true from beq_self_eq_true k)]
      simp only [List.length_cons]
      omega
    · rw [if_neg ha]
      unfold keyCount at ih ⊢
      rw [List.filter_cons, List.filter_cons, if_neg ha, if_neg ha]
      exact ih

theorem find_map_replace (t : ReviewStore) (k : String) (v : ReviewTask)
    (h : t.any (fun p => p.1 == k) = true) :
    (t.map (fun p => if p.1 == k then (k, v) else p)).find? (fun p => p.1 == k)
      = some (k, v) := by
  induction t with
  | nil => simp at h
  | cons a t ih =>
    rw [List.map_cons]
    by_cases ha : (a.1 == k) = true
    · rw [if_pos ha]
      exact List.find?_cons_of_pos _ (beq_self_eq_true k)
    · rw [Bool.not_eq_true] at ha
      rw [if_neg (by rw [ha]; exact Bool.false_ne_true)]
      rw [List.any_cons, ha, Bool.false_or] at h
      simp only [List.find?_cons, ha]
      exact ih h

theorem find_append_new (t : ReviewStore) (k : String) (v : ReviewTask)
    (h : t.any (fun p => p.1 == k) = false) :
    (t ++ [(k, v)]).find? (fun p => p.1 == k) = some (k, v) := by
  induction t with
  | nil =>
    rw [List.nil_append]
    exact List.find?_cons_of_pos _ (beq_self_eq_true k)
  | cons a t ih =>
    rw [List.any_cons, Bool.or_eq_false_iff] at h
    rw [List.cons_append]
    simp only [List.find?_cons, h.1]
    exact ih h.2

theorem keyCount_dictInsert (s : ReviewStore) (k : String) (v : ReviewTask) :
    keyCount (dictInsert s k v) k = max 1 (keyCount s k) := by
  unfold dictInsert
  by_cases h : s.any (fun p => p.1 == k) = true
  · rw [if_pos h, keyCount_map_replace]
    have hpos : 0 < keyCount s k := by
      rw [List.any_eq_true] at h
      obtain ⟨p, hp, hpk⟩ := h
      have hmem : p ∈ s.filter (fun q => q.1 == k) := List.mem_filter.mpr ⟨hp, hpk⟩
      have := List.length_pos.mpr (List.ne_nil_of_mem hmem)
      simpa [keyCount] using this
    omega
  · rw [if_neg h, keyCount_append]
    have hzero : keyCount s k = 0 := by
      rw [Bool.not_eq_true, List.any_eq_false] at h
      simp only [keyCount, List.length_eq_zero]
      rw [List.filter_eq_nil_iff]
      intro p hp
      exact h p hp
    rw [hzero]
    simp [keyCount]

theorem dictGet_dictInsert (s : ReviewStore) (k : String) (v : ReviewTask) :
    dictGet (dictInsert s k v) k = some v := by
  unfold dictInsert dictGet
  by_cases h : s.any (fun p => p.1 == k) = true
  · rw [if_pos h, find_map_replace s k v h]
    rfl
  · rw [if_neg h, find_append_new s k v (by rw [Bool.not_eq_true] at h; exact h)]
    rfl

theorem StoreWf.keyCount_le_one (store : ReviewStore) (k : String) (h : StoreWf store) :
    keyCount store k ≤ 1 := by
  induction store with
  | nil => simp [keyCount]
  | cons a t ih =>
    unfold StoreWf at h
    rw [List.map_cons, List.nodup_cons] at h
    unfold keyCount
    rw [List.filter_cons]
    by_cases ha : (a.1 == k) = true
    · rw [if_pos ha]
      have hk : a.1 = k := by rwa [beq_iff_eq] at ha
      have hzero : keyCount t k = 0 := by
        simp only [keyCount, List.length_eq_zero]
        rw [List.filter_eq_nil_iff]
        intro p hp
        intro hpk
        apply h.1
        rw [List.mem_map]
        refine ⟨p, hp, ?_⟩
        have : p.1 = k := by rwa [beq_iff_eq] at hpk
        rw [this, hk]
      simp only [List.length_cons]
      unfold keyCount at hzero
      omega
    · rw [if_neg ha]
      exact ih h.2


theorem retryLoop_client_error (responses : Nat → CallOutcome) (maxR : Nat) (d : ℚ)
    (a : Nat) (last : Option ChatError) (c : Nat) (ha : a < maxR)
    (hresp : responses a = .httpStatusError c) (hc : c < 500) :
    retryLoop responses maxR d a last = (.error (.httpStatus c), []) := by
  unfold retryLoop
  rw [dif_pos ha]
  split
  all_goals rename_i heq
  · rw [hresp] at heq
    cases heq
  · rw [hresp] at heq
    cases heq
    rw [if_pos hc]
  · rw [hresp] at heq
    cases heq
  · rw [hresp] at heq
    cases heq

theorem retryLoop_ok_of_transient (responses : Nat → CallOutcome) (d : ℚ) (body : String)
    (maxR : Nat) : ∀ (n a : Nat) (last : Option ChatError), a + n < maxR →
    (∀ i, a ≤ i → i < a + n → (responses i).isTransient = true) →
    responses (a + n) = .success body →
    retryLoop responses maxR d a last
      = (.ok body, (List.range n).map (fun i => d * 2 ^ (a + i))) := by
  intro n
  induction n with
  | zero =>
    intro a last hlt htrans hsucc
    simp only [Nat.add_zero] at hlt hsucc
    unfold retryLoop
    rw [dif_pos hlt]
    split
    all_goals rename_i x arg heq
    · rw [hsucc] at heq
      cases heq
      rfl
    · rw [hsucc] at heq
      cases heq
    · rw [hsucc] at heq
      cases heq
    · rw [hsucc] at heq
      cases heq
  | succ n ih =>
    intro a last hlt htrans hsucc
    have ha : a < maxR := by omega
    have htr := htrans a (le_refl a) (by omega)
    have hlist : d * 2 ^ a :: (List.range n).map (fun i => d * 2 ^ (a + 1 + i))
        = (List.range (n + 1)).map (fun i => d * 2 ^ (a + i)) := by
      rw [List.range_succ_eq_map, List.map_cons, List.map_map]
      refine congrArg₂ _ (by rw [Nat.add_zero]) ?_
      refine List.map_congr_left ?_
      intro i _
      show d * 2 ^ (a + 1 + i) = d * 2 ^ (a + (i + 1))
      rw [show a + 1 + i = a + (i + 1) from by omega]
    unfold retryLoop
    rw [dif_pos ha]
    split
    all_goals rename_i x arg heq
    · rw [heq] at htr
      simp [CallOutcome.isTransient] at htr
    · rw [heq] at htr
      have hcode : 500 ≤ arg := by
        simpa [CallOutcome.isTransient] using htr
      have hrec2 := ih (a + 1) (some (.httpStatus arg)) (by omega)
        (fun i h1 h2 => htrans i (by omega) (by omega))
        (by rw [show a + 1 + n = a + (n + 1) from by omega]; exact hsucc)
      rw [if_neg (by omega)]
      rw [if_pos (show a < maxR - 1 by omega)]
      rw [hrec2, hlist]
    · have hrec2 := ih (a + 1) (some (.network arg)) (by omega)
        (fun i h1 h2 => htrans i (by omega) (by omega))
        (by rw [show a + 1 + n = a + (n + 1) from by omega]; exact hsucc)
      rw [if_pos (show a < maxR - 1 by omega)]
      rw [hrec2, hlist]
    · rw [heq] at htr
      simp [CallOutcome.isTransient] at htr

theorem persist_stage_returns_ok (env : PQEnv) (query research plan answer model : String)
    (space_tokens : Bool) :
    ∃ r, (persist_stage env query research plan answer model space_tokens).1 = .ok r := by
  unfold persist_stage
  cases h : (if env.db_provided then env.store_conversation else .ok ()) with
  | error e => exact ⟨error_result e, rfl⟩
  | ok u => exact ⟨_, rfl⟩

theorem implement_stage_returns_ok (env : PQEnv) (query research plan model : String)
    (space_tokens : Bool) :
    ∃ r, (implement_stage env query research plan model space_tokens).1 = .ok r := by
  unfold implement_stage
  cases h : env.implement_chain query research plan with
  | error e => exact ⟨error_result e, rfl⟩
  | ok answer =>
    obtain ⟨r, hr⟩ := persist_stage_returns_ok env query research plan answer model space_tokens
    exact ⟨r, hr⟩

theorem plan_stage_returns_ok (env : PQEnv) (query research model : String)
    (space_tokens : Bool) :
    ∃ r, (plan_stage env query research model space_tokens).1 = .ok r := by
  unfold plan_stage
  cases h : env.plan_chain query research with
  | error e => exact ⟨error_result e, rfl⟩
  | ok plan =>
    obtain ⟨r, hr⟩ := implement_stage_returns_ok env query research plan model space_tokens
    exact ⟨r, hr⟩

theorem main_try_returns_ok (env : PQEnv) (query model : String) (space_tokens : Bool) :
    ∃ r, (main_try env query model space_tokens).1 = .ok r := by
  unfold main_try
  cases h : env.research_chain query with
  | error e => exact ⟨error_result e, rfl⟩
  | ok research =>
    obtain ⟨r, hr⟩ := plan_stage_returns_ok env query research model space_tokens
    exact ⟨r, hr⟩

/-! ## Claim theorems -/

/-- Claim C10: calling set_status on the in-memory review store with a task
id that does not exist is a silent no-op — it returns normally without
raising, creates no task, and leaves every stored task unchanged. -/
theorem c10_set_status_missing_is_noop (store : ReviewStore) (task_id : String)
    (status : ReviewStatus) (notes : String)
    (h : InMemoryReviewStore.get store task_id = none) :
    InMemoryReviewStore.set_status store task_id status notes = store := by
  unfold InMemoryReviewStore.get at h
  unfold InMemoryReviewStore.set_status
  rw [h]

/-- Witness for C10 at the empty store and a missing id. -/
theorem c10_witness :
    InMemoryReviewStore.get ([] : ReviewStore) "missing" = none ∧
    InMemoryReviewStore.set_status ([] : ReviewStore) "missing" ReviewStatus.approved "n" = [] :=
  ⟨rfl, c10_set_status_missing_is_noop [] "missing" ReviewStatus.approved "n" rfl⟩

/-- Claim C8: ReviewGate.create (in-memory default implementation) is
idempotent per task id: calling create twice with the same task id does not
create two distinct tasks — after the second call the store contains
exactly one task under that id, and the second call does not fail (it
returns the updated store, holding the last-written task). -/
theorem c8_create_idempotent (store : ReviewStore) (t1 t2 : ReviewTask)
    (hwf : StoreWf store) (hid : t2.id = t1.id) :
    keyCount (InMemoryReviewStore.create (InMemoryReviewStore.create store t1) t2) t1.id = 1 ∧
    InMemoryReviewStore.get (InMemoryReviewStore.create (InMemoryReviewStore.create store t1) t2)
      t1.id = some t2 := by
  constructor
  · unfold InMemoryReviewStore.create
    rw [hid, keyCount_dictInsert, keyCount_dictInsert]
    have h1 := StoreWf.keyCount_le_one store t1.id hwf
    omega
  · unfold InMemoryReviewStore.create InMemoryReviewStore.get
    rw [hid]
    exact dictGet_dictInsert _ _ _

/-- Witness for C8: two creates under id r1 starting from the empty store. -/
theorem c8_witness :
    StoreWf ([] : ReviewStore) ∧ taskB.id = taskA.id ∧
    keyCount (InMemoryReviewStore.create (InMemoryReviewStore.create [] taskA) taskB)
      taskA.id = 1 ∧
    InMemoryReviewStore.get (InMemoryReviewStore.create (InMemoryReviewStore.create [] taskA)
      taskB) taskA.id = some taskB :=
  ⟨by simp [StoreWf], rfl,
   (c8_create_idempotent [] taskA taskB (by simp [StoreWf]) rfl).1,
   (c8_create_idempotent [] taskA taskB (by simp [StoreWf]) rfl).2⟩

/-- Claim C9: whenever a caller passes its own HTTP client explicitly to
call_openrouter_chat, that client is closed before the call returns — for
every outcome, success or error — while the shared client obtained
internally is left open. -/
theorem c9_client_close (responses : Nat → CallOutcome) (max_retries : Nat)
    (retry_delay elapsed : ℚ) :
    (call_openrouter_chat responses max_retries retry_delay true elapsed).clientClosed = true ∧
    (call_openrouter_chat responses max_retries retry_delay false elapsed).clientClosed = false :=
  ⟨rfl, rfl⟩

/-- Claim C5 (code bug): the Link Agent is meant to fetch each URL through
the Result Cache and turn per-URL transport errors into inline error
fragments, but the production fetch path evaluates the unbound name
get_cached, so the whole batch aborts with a NameError for every non-empty
URL list — here even though every fetch in the environment would succeed. -/
theorem c5_missing_import_aborts_batch :
    LinkCrawlerAgent.run (production.fetch_urls linkEnvOk)
      [{ type := ContextSourceType.URL, path := "https://a.example" },
       { type := ContextSourceType.API, path := "https://b.example" }] "q"
      = .error getCachedNameError := rfl

/-- Claim C3: for every call, an HTTP-status error of 5xx or a
network/timeout error is retried up to max_retries attempts with an
inter-attempt sleep of retry_delay * 2 ** attempt (strictly increasing for
a positive base delay), while an HTTP-status error below 500 is raised
immediately without any retry sleep; in particular a call failing k times
transiently and succeeding at attempt k returns the successful body with
exactly k inter-attempt sleeps — for k = 2 and a 503, two strictly
increasing sleeps. -/
theorem c3_retry_policy (d : ℚ) (hd : 0 < d) (c : Nat) (hc : c < 500) (body : String)
    (responses4 responses : Nat → CallOutcome) (maxR k : Nat) (elapsed : ℚ)
    (hmr : 0 < maxR) (h4 : responses4 0 = .httpStatusError c)
    (hk : k < maxR) (htrans : ∀ i, i < k → (responses i).isTransient = true)
    (hsucc : responses k = .success body) :
    (call_openrouter_chat responses4 maxR d false elapsed).result
      = .error (.httpStatus c) ∧
    (call_openrouter_chat responses4 maxR d false elapsed).retrySleeps = [] ∧
    (call_openrouter_chat responses maxR d false elapsed).result = .ok body ∧
    (call_openrouter_chat responses maxR d false elapsed).retrySleeps
      = (List.range k).map (fun i => d * 2 ^ i) ∧
    (call_openrouter_chat responses maxR d false elapsed).retrySleeps.Pairwise (· < ·) := by
  have h4loop := retryLoop_client_error responses4 maxR d 0 none c hmr h4 hc
  have hsloop := retryLoop_ok_of_transient responses d body maxR k 0 none
    (by omega) (fun i h1 h2 => htrans i (by omega)) (by rw [Nat.zero_add]; exact hsucc)
  have hres4 : (call_openrouter_chat responses4 maxR d false elapsed).result
      = (retryLoop responses4 maxR d 0 none).1 := rfl
  have hsl4 : (call_openrouter_chat responses4 maxR d false elapsed).retrySleeps
      = (retryLoop responses4 maxR d 0 none).2 := rfl
  have hres : (call_openrouter_chat responses maxR d false elapsed).result
      = (retryLoop responses maxR d 0 none).1 := rfl
  have hsl : (call_openrouter_chat responses maxR d false elapsed).retrySleeps
      = (retryLoop responses maxR d 0 none).2 := rfl
  have hmap : (List.range k).map (fun i => d * 2 ^ (0 + i))
      = (List.range k).map (fun i => d * 2 ^ i) := by
    refine List.map_congr_left ?_
    intro i _
    rw [Nat.zero_add]
  refine ⟨?_, ?_, ?_, ?_, ?_⟩
  · rw [hres4, h4loop]
  · rw [hsl4, h4loop]
  · rw [hres, hsloop]
  · rw [hsl, hsloop]
    exact hmap
  · rw [hsl, hsloop]
    show ((List.range k).map (fun i => d * 2 ^ (0 + i))).Pairwise (· < ·)
    rw [List.pairwise_map]
    refine (List.pairwise_lt_range k).imp ?_
    intro i j hij
    exact mul_lt_mul_of_pos_left (pow_lt_pow_right₀ one_lt_two (by omega)) hd

/-- Witness for C3: a 404 raised at once with no sleep, and the 503/503/
success scenario returning the body after exactly the sleeps 1 and 2. -/
theorem c3_witness :
    (call_openrouter_chat respsC3bad 3 1 false 1).result
      = .error (.httpStatus 404) ∧
    (call_openrouter_chat respsC3bad 3 1 false 1).retrySleeps = [] ∧
    (call_openrouter_chat respsC3 3 1 false 1).result = .ok "done" ∧
    (call_openrouter_chat respsC3 3 1 false 1).retrySleeps = [1, 2] ∧
    (1 : ℚ) < 2 := by
  have h := c3_retry_policy 1 (by norm_num) 404 (by norm_num) "done" respsC3bad respsC3
    3 2 1 (by norm_num) rfl (by norm_num)
    (by
      intro i hi
      have hi2 : i = 0 ∨ i = 1 := by omega
      rcases hi2 with rfl | rfl <;> rfl)
    rfl
  refine ⟨h.1, h.2.1, h.2.2.1, ?_, by norm_num⟩
  rw [h.2.2.2.1]
  norm_num [List.range_succ]

/-- Claim C2: the usage ledger returns a zero record when none exists, and
update_space_usage adds the increments to the existing totals rather than
overwriting them; applying the same update twice accumulates additively. -/
theorem c2_usage_ledger_additive (store : UsageStore) (sid month : String)
    (dt dc : Int) (dusd : ℚ) :
    (store sid month = none →
      SpaceManager.get_space_usage store sid month
        = { space_id := sid, month := month, tokens_used := 0, api_calls_used := 0,
            cost_usd := 0 }) ∧
    (SpaceManager.get_space_usage (SpaceManager.update_space_usage store sid dt dc dusd month)
        sid month).tokens_used
      = (SpaceManager.get_space_usage store sid month).tokens_used + dt ∧
    (SpaceManager.get_space_usage (SpaceManager.update_space_usage store sid dt dc dusd month)
        sid month).api_calls_used
      = (SpaceManager.get_space_usage store sid month).api_calls_used + dc ∧
    (SpaceManager.get_space_usage (SpaceManager.update_space_usage store sid dt dc dusd month)
        sid month).cost_usd
      = (SpaceManager.get_space_usage store sid month).cost_usd + dusd ∧
    (SpaceManager.get_space_usage
        (SpaceManager.update_space_usage
          (SpaceManager.update_space_usage store sid dt dc dusd month) sid dt dc dusd month)
        sid month).tokens_used
      = (SpaceManager.get_space_usage store sid month).tokens_used + dt + dt ∧
    (SpaceManager.get_space_usage
        (SpaceManager.update_space_usage
          (SpaceManager.update_space_usage store sid dt dc dusd month) sid dt dc dusd month)
        sid month).api_calls_used
      = (SpaceManager.get_space_usage store sid month).api_calls_used + dc + dc ∧
    (SpaceManager.get_space_usage
        (SpaceManager.update_space_usage
          (SpaceManager.update_space_usage store sid dt dc dusd month) sid dt dc dusd month)
        sid month).cost_usd
      = (SpaceManager.get_space_usage store sid month).cost_usd + dusd + dusd := by
  refine ⟨fun h => ?_, ?_⟩
  · simp [SpaceManager.get_space_usage, h]
  · unfold SpaceManager.get_space_usage SpaceManager.update_space_usage
    cases h : store sid month <;> simp [h]

/-- Witness for C2 starting from the empty usage store. -/
theorem c2_witness :
    SpaceManager.get_space_usage usageStore0 "T" "2026-10"
      = { space_id := "T", month := "2026-10", tokens_used := 0, api_calls_used := 0,
          cost_usd := 0 } ∧
    (SpaceManager.get_space_usage
        (SpaceManager.update_space_usage usageStore0 "T" 5 1 (1/2) "2026-10")
        "T" "2026-10").tokens_used
      = (SpaceManager.get_space_usage usageStore0 "T" "2026-10").tokens_used + 5 ∧
    (SpaceManager.get_space_usage
        (SpaceManager.update_space_usage
          (SpaceManager.update_space_usage usageStore0 "T" 5 1 (1/2) "2026-10")
          "T" 5 1 (1/2) "2026-10")
        "T" "2026-10").tokens_used
      = (SpaceManager.get_space_usage usageStore0 "T" "2026-10").tokens_used + 5 + 5 :=
  ⟨(c2_usage_ledger_additive usageStore0 "T" "2026-10" 5 1 (1/2)).1 rfl,
   (c2_usage_ledger_additive usageStore0 "T" "2026-10" 5 1 (1/2)).2.1,
   (c2_usage_ledger_additive usageStore0 "T" "2026-10" 5 1 (1/2)).2.2.2.2.1⟩

/-- Claim C6: for every ContextSource list with no FILE/DIRECTORY, URL/API,
DATABASE or MEMORY source, research_with_context returns a header-only
research document containing the original query and no findings fragments,
and never errors, because each sub-agent returns an empty fragment (not an
error) when no sources match its kind. -/
theorem c6_header_only (env : CoordinatorEnv) (spec : ContextSpecification)
    (h : ∀ s ∈ spec.sources,
      s.type ≠ ContextSourceType.FILE ∧ s.type ≠ ContextSourceType.DIRECTORY ∧
      s.type ≠ ContextSourceType.URL ∧ s.type ≠ ContextSourceType.API ∧
      s.type ≠ ContextSourceType.DATABASE ∧ s.type ≠ ContextSourceType.MEMORY) :
    MultiAgentCoordinator.research_with_context env spec
      = .ok ("# Research Summary\n\nQuery: " ++ spec.query ++ "\n\n") ∧
    FileExplorerAgent.run env.read_paths spec.sources spec.query = .ok "" ∧
    LinkCrawlerAgent.run env.fetch_urls spec.sources spec.query = .ok "" ∧
    DataAnalyzerAgent.run env.analyze_databases spec.sources spec.query = .ok "" ∧
    MemoryRetrieverAgent.run env.retrieve_memory spec.sources spec.query = .ok "" := by
  obtain ⟨q, sources⟩ := spec
  have hnil : sources = [] := by
    cases hs : sources with
    | nil => rfl
    | cons a t =>
      exfalso
      have ha := h a (by rw [hs]; exact List.mem_cons_self a t)
      obtain ⟨ty, p⟩ := a
      cases ty <;> simp at ha
  subst hnil
  refine ⟨?_, rfl, rfl, rfl, rfl⟩
  show Except.ok (SynthesizerAgent.run ["", "", "", ""] q) = _
  unfold SynthesizerAgent.run
  rw [show List.filter (fun p : String => pyStrip p != "") ["", "", "", ""] = [] from rfl]
  show Except.ok ("# Research Summary\n\nQuery: " ++ q ++ "\n\n" ++
    String.intercalate "\n\n" ([] : List String))
    = Except.ok ("# Research Summary\n\nQuery: " ++ q ++ "\n\n")
  rw [show String.intercalate "\n\n" ([] : List String) = "" from rfl, String.append_empty]

/-- Witness for C6: an empty source list with a concrete query. -/
theorem c6_witness :
    MultiAgentCoordinator.research_with_context
      { read_paths := fun _ => .ok "F", fetch_urls := fun _ => .ok "L",
        analyze_databases := fun _ _ => .ok "D", retrieve_memory := fun _ _ => .ok "M" }
      { query := "what is new", sources := [] }
      = .ok "# Research Summary\n\nQuery: what is new\n\n" :=
  (c6_header_only _ _ (by intro s hs; cases hs)).1

/-- Claim C7: when the plan review task is REJECTED at the time the
pipeline resumes (plan output produced, review id present), the plan is
not approved, the implement node sets the answer to exactly
"Plan not approved. Cannot implement." and the implement phase performs
zero generation calls. -/
theorem c7_plan_rejected_skips_implement (hash_query : Nat)
    (chat : String → Except PyExc String) (st : ConversationState) (store : ReviewStore)
    (rid : String) (task : ReviewTask) (p : String)
    (hplan : st.plan_output = some p) (hp : p ≠ "")
    (hrid : st.plan_review_id = some rid)
    (htask : InMemoryReviewStore.get store rid = some task)
    (hrej : task.status = .rejected) :
    ((plan_review_node hash_query st store).1).plan_approved = false ∧
    (implement_node chat (plan_review_node hash_query st store).1).2 = 0 ∧
    (implement_node chat (plan_review_node hash_query st store).1).1
      = .ok { (plan_review_node hash_query st store).1 with
              answer := some "Plan not approved. Cannot implement." } := by
  have hnode : plan_review_node hash_query st store
      = ({ st with plan_approved := false }, store) := by
    unfold plan_review_node
    simp only [hplan, hrid, htask, hrej]
    simp [hp]
  refine ⟨?_, ?_, ?_⟩
  · rw [hnode]
  · rw [hnode]
    rfl
  · rw [hnode]
    rfl

/-- Witness for C7 at a concrete resumed state with a rejected plan task. -/
theorem c7_witness :
    stateC7.plan_output = some "p" ∧
    ((plan_review_node 1 stateC7 storeC7).1).plan_approved = false ∧
    (implement_node (fun _ => .ok "generated") (plan_review_node 1 stateC7 storeC7).1).2 = 0 ∧
    (implement_node (fun _ => .ok "generated") (plan_review_node 1 stateC7 storeC7).1).1
      = .ok { (plan_review_node 1 stateC7 storeC7).1 with
              answer := some "Plan not approved. Cannot implement." } := by
  have h := c7_plan_rejected_skips_implement 1 (fun _ => .ok "generated") stateC7 storeC7
    "plan-u-1" taskC7 "p" rfl (by decide) rfl rfl rfl
  exact ⟨rfl, h.1, h.2.1, h.2.2⟩

/-- Claim C1: for every run whose remaining token budget is strictly below
10000, process_query terminates at the budget check with
metadata_error = budget_exceeded, an answer containing the comma-formatted
remaining token count, and zero generation calls. -/
theorem c1_budget_gate (env : PQEnv) (sm : SMEnv) (cfg : SpaceConfig)
    (query : String) (model_arg : Option String)
    (hsm : env.space_manager = some sm)
    (hcs : sm.current_space = .ok cfg)
    (hfault : sm.usage_fault = none)
    (hrem : observed_remaining sm cfg < 10000) :
    process_query env query model_arg
      = (.ok (budget_result (observed_remaining sm cfg)), 0) ∧
    (budget_result (observed_remaining sm cfg)).metadata_error = some "budget_exceeded" ∧
    ∃ pre post, (budget_result (observed_remaining sm cfg)).answer
      = pre ++ pythonCommaFormat (observed_remaining sm cfg) ++ post := by
  refine ⟨?_, rfl, ?_⟩
  · unfold observed_remaining at hrem ⊢
    have hsetup : space_setup sm
        = .budgetExceeded ((SpaceManager.get_space_usage sm.usage_store cfg.space_id
            sm.current_month).get_budget_remaining cfg) := by
      unfold space_setup SMEnv.get_space_usage_call
      simp only [hcs, hfault]
      rw [if_pos hrem]
    unfold process_query
    simp only [hsm, hsetup]
  · exact ⟨"Space budget exceeded. Only ",
      " tokens remaining. Please upgrade your plan or wait for the next billing cycle.", rfl⟩

/-- Witness for C1: tenant T2 with budget 100000 and 95000 tokens used —
remaining 5000; the result is the budget-exceeded record, the answer quotes
5,000, and zero generation calls are made. -/
theorem c1_witness :
    process_query envT2 "q" none = (.ok (budget_result 5000), 0) ∧
    (budget_result 5000).metadata_error = some "budget_exceeded" ∧
    (budget_result 5000).answer
      = "Space budget exceeded. Only 5,000 tokens remaining. Please upgrade your plan or wait for the next billing cycle." := by
  have hrem5 : observed_remaining smT2 cfgT2 = 5000 := by decide
  have h := c1_budget_gate envT2 smT2 cfgT2 "q" none rfl rfl rfl
    (by rw [hrem5]; norm_num)
  rw [hrem5] at h
  exact ⟨h.1, h.2.1, by decide⟩

/-- Claim C4 counterexample: with a space manager whose usage read raises a
non-RuntimeError database exception, process_query propagates the exception
to its caller instead of returning a result — the budget-check section sits
before the top-level try/except and its own except clause catches only
RuntimeError. -/
theorem c4_counterexample :
    (process_query envFault "q" none).1
      = .error { runtime := false, msg := "database connection lost" } := rfl

/-- Claim C4 (amended): every exception raised inside the try body of
process_query (the research, plan and implement chains and the conversation
write) is caught at the top level and converted into a returned result
whose metadata carries str(e) and whose answer is a user-safe message, and
process_query returns a result whenever no space is in effect (no space
manager, or the RuntimeError no-space fallback); but the pre-try
space/budget setup propagates every non-RuntimeError exception it raises,
and with a space selected and the budget check passed it unconditionally
raises TypeError at the ObsidianClient(vault_path=...) call, so every
budget-OK space run propagates an exception to the caller. -/
theorem c4_errors_converted (env : PQEnv) (query model : String) (marg : Option String)
    (space_tokens : Bool) (e : PyExc) (sm : SMEnv) (cfg : SpaceConfig) :
    (env.space_manager = none → ∃ r, (process_query env query marg).1 = .ok r) ∧
    (env.space_manager = some sm → space_setup sm = .fallback →
      ∃ r, (process_query env query marg).1 = .ok r) ∧
    (env.space_manager = some sm → sm.current_space = .ok cfg → sm.usage_fault = none →
      10000 ≤ observed_remaining sm cfg →
      (process_query env query marg).1 = .error obsidianVaultPathTypeError) ∧
    (env.research_chain query = .error e →
      main_try env query model space_tokens = (.ok (error_result e), 1)) ∧
    (∀ research, env.plan_chain query research = .error e →
      plan_stage env query research model space_tokens = (.ok (error_result e), 2)) ∧
    (∀ research plan, env.implement_chain query research plan = .error e →
      implement_stage env query research plan model space_tokens
        = (.ok (error_result e), 3)) ∧
    (∀ research plan answer, env.db_provided = true → env.store_conversation = .error e →
      persist_stage env query research plan answer model space_tokens
        = (.ok (error_result e), 3)) ∧
    (error_result e).metadata_error = some e.msg ∧
    (error_result e).answer = "I encountered an error processing your query: " ++ e.msg := by
  refine ⟨?_, ?_, ?_, ?_, ?_, ?_, ?_, rfl, rfl⟩
  · intro hsm
    obtain ⟨r, hr⟩ := main_try_returns_ok env query
      (match marg with | some m => m | none => env.default_model) false
    refine ⟨r, ?_⟩
    unfold process_query
    rw [hsm]
    exact hr
  · intro hsm hset
    obtain ⟨r, hr⟩ := main_try_returns_ok env query
      (match marg with | some m => m | none => env.default_model) false
    refine ⟨r, ?_⟩
    unfold process_query
    simp only [hsm, hset]
    exact hr
  · intro hsm hcs hfault hrem
    unfold observed_remaining at hrem
    have hset : space_setup sm = .raised obsidianVaultPathTypeError := by
      unfold space_setup SMEnv.get_space_usage_call
      simp only [hcs, hfault]
      rw [if_neg (not_lt.mpr hrem)]
    unfold process_query
    simp only [hsm, hset]
  · intro h
    unfold main_try
    rw [h]
  · intro research h
    unfold plan_stage
    rw [h]
  · intro research plan h
    unfold implement_stage
    rw [h]
  · intro research plan answer hdb h
    unfold persist_stage
    rw [hdb]
    simp only [if_true]
    rw [h]

/-- Witness for C4 (amended): a run without a space whose research chain
raises returns an ok result carrying the error in metadata, while a run
with a selected space and ample budget (no usage row: remaining 100000)
propagates the TypeError of the setup section. -/
theorem c4_witness :
    (process_query envErr "q" none).1
      = .ok (error_result { runtime := false, msg := "boom" }) ∧
    (error_result { runtime := false, msg := "boom" }).metadata_error = some "boom" ∧
    (process_query envOkBudget "q" none).1 = .error obsidianVaultPathTypeError := by
  have h := c4_errors_converted envErr "q" "openai/gpt-4o-mini" none false
    { runtime := false, msg := "boom" } smOkBudget cfgT2
  have h2 := h.2.2.2.1 rfl
  have hbig := c4_errors_converted envOkBudget "q" "openai/gpt-4o-mini" none false
    { runtime := false, msg := "boom" } smOkBudget cfgT2
  refine ⟨?_, h.2.2.2.2.2.2.2.1, hbig.2.2.1 rfl rfl rfl (by decide)⟩
  rw [show process_query envErr "q" none
    = main_try envErr "q" "openai/gpt-4o-mini" false from rfl, h2]

end MeraAI
